import Mathlib

/-!
Shallow embedding of the incremental scrobble-synchronization engine of
LastCharts (`src/lastcharts/lastfm.py`, class `LastFM`): paginated fetch
(`_get_all_scrobbles` / `_get_recent_tracks`), response parsing
(`_parse_responses`), and the load/merge/persist coordinator (`load_user`).

Modelling conventions:
- A pandas cell of a text column is `Option String`; `none` models NaN/NA.
- Timestamps are `Option Int`, seconds since the epoch at second resolution
  (the display format parsed by the code has minute resolution, and the
  ISO8601 round trip through the csv file is exact at this resolution);
  `none` models NaT (the "now playing" entry whose `date` key is absent).
- The remote API is a function from the request parameters the code sends
  (`user`, `page`, `limit`, `from`) to a response; the csv file on disk is a
  list of csv rows handed to `load_user` in place of the file system.
- Python exceptions (KeyError on a payload missing the `track` key,
  ValueError from `pd.concat([])`, IndexError from `iloc`, AttributeError
  from `None.drop_duplicates`) are modelled as `Except String`.
- `pd.concat` keeps each page frame's positional labels, so rows are paired
  with their per-page label; `df.loc[0, "datetime"] = v` assigns every row
  whose label is 0 (one per non-empty page).
-/

deriving instance DecidableEq for Except

namespace LastCharts

/-- A pandas cell of a text column: `none` is NaN/NA. -/
abbrev Cell := Option String

/-- One row of the scrobble frame, columns `artist, album, track, datetime,
image` as in `LastFM.df_cols`. -/
structure Row where
  artist : Cell
  album : Cell
  track : Cell
  datetime : Option Int
  image : Cell
deriving DecidableEq, Repr

/-- One raw track entry of a page payload (`recenttracks.track[i]`), already
projected to the fields the parser reads: `artist.#text`, `album.#text`,
`name`, `date` (absent for the currently playing track, its display text
abstracted to the instant it denotes), `image[-1].#text`. -/
structure Entry where
  artist : String
  album : String
  track : String
  date : Option Int
  image : String
deriving DecidableEq, Repr

/-- The part of a page payload the code reads: `recenttracks.track` (`none`
when the track list is structurally absent, so that indexing raises
KeyError) and `recenttracks.@attr.totalPages`. -/
structure Payload where
  track : Option (List Entry)
  totalPages : Nat
deriving DecidableEq, Repr

/-- One HTTP response: status code and decoded payload. -/
structure Response where
  status_code : Nat
  payload : Payload
deriving DecidableEq, Repr

/-- The query parameters `_get_recent_tracks` sends. -/
structure Request where
  user : String
  page : Nat
  limit : Nat
  fromTs : Int
deriving DecidableEq, Repr

/-- The remote service: a function from request parameters to the response. -/
abbrev API := Request → Response

/-- `_get_recent_tracks`: builds the request for one page. -/
def get_recent_tracks (user : String) (page : Nat) (limit : Nat) (start : Int) :
    Request :=
  { user := user, page := page, limit := limit, fromTs := start }

/-- `row["recenttracks"]["track"]`: KeyError when the track list is absent. -/
def tracksOf (r : Response) : Except String (List Entry) :=
  match r.payload.track with
  | some l => .ok l
  | none => .error "KeyError: track"

/-- One parsed row before normalization: the column extraction of
`_parse_responses` for a single entry. -/
def entryToRow (e : Entry) : Row :=
  { artist := some e.artist, album := some e.album, track := some e.track,
    datetime := e.date, image := some e.image }

/-- Positional labels of one page frame: row i gets label i. -/
def withLabels : Nat → List Row → List (Nat × Row)
  | _, [] => []
  | i, r :: rs => (i, r) :: withLabels (i + 1) rs

/-- `pd.concat(dfs)` keeping each frame's own positional labels. -/
def concatWithLabels (dfs : List (List Row)) : List (Nat × Row) :=
  (dfs.map (withLabels 0)).flatten

/-- The currently-playing fix of `_parse_responses`: when any datetime is
missing, `df.loc[0, "datetime"] = df["datetime"].iloc[1] + 3 minutes` — the
positionally second datetime plus 180 seconds is written to every row whose
label is 0 (NaT plus a timedelta stays NaT; a length-one frame raises
IndexError at `iloc[1]`). -/
def setNowPlaying (labeled : List (Nat × Row)) :
    Except String (List (Nat × Row)) :=
  if labeled.any (fun lr => lr.2.datetime.isNone) then
    match labeled[1]? with
    | none => .error "IndexError: single positional indexer is out-of-bounds"
    | some lr1 =>
      .ok (labeled.map (fun lr =>
        if lr.1 = 0 then
          (lr.1, { lr.2 with datetime := lr1.2.datetime.map (· + 180) })
        else lr))
  else .ok labeled

/-- `str.replace("$", "s")` (literal replacement, pandas 2 default): for the
one-character pattern this is exactly a character map. -/
def replaceDollar (s : String) : String :=
  String.mk (s.data.map (fun c => if c = Char.ofNat 36 then Char.ofNat 115
                                  else c))

/-- The dollar-sign normalization of `_parse_responses` on the three text
columns. -/
def dollarFix (r : Row) : Row :=
  { r with
    artist := r.artist.map replaceDollar,
    album := r.album.map replaceDollar,
    track := r.track.map replaceDollar }

/-- The per-response frame-building loop of `_parse_responses`: one frame per
response, raising KeyError at the first payload without a track list. -/
def buildFrames : List Response → Except String (List (List Row))
  | [] => .ok []
  | r :: rs => do
    let t ← tracksOf r
    let rest ← buildFrames rs
    .ok (t.map entryToRow :: rest)

/-- `_parse_responses`: build one frame per response (KeyError when a payload
has no track list), concatenate them (`pd.concat([])` raises ValueError for
an empty response list), and when the result is non-empty apply the
currently-playing fix and the dollar normalization. -/
def parse_responses (responses : List Response) : Except String (List Row) := do
  let dfs ← buildFrames responses
  if dfs.isEmpty then
    .error "ValueError: No objects to concatenate"
  else
    let labeled := concatWithLabels dfs
    if labeled.isEmpty then
      .ok []
    else do
      let fixed ← setNowPlaying labeled
      .ok (fixed.map (fun lr => dollarFix lr.2))

/-- The page-2-onwards fetch loop of `_get_all_scrobbles`: starting at `page`
with `n` pages left (`n = total_pages - page + 1`), request sequentially and
stop at the first non-200 response, which is discarded. Returns the number
of requests made and the successful responses in order. -/
def fetchRest (api : API) (user : String) (start : Int) :
    Nat → Nat → Nat × List Response
  | _, 0 => ⟨0, []⟩
  | page, Nat.succ n =>
    let r := api (get_recent_tracks user page 200 start)
    if r.status_code ≠ 200 then ⟨1, []⟩
    else
      let res := fetchRest api user start (page + 1) n
      ⟨res.1 + 1, r :: res.2⟩

/-- `_get_all_scrobbles`: request page 1; on a non-200 first response break
with no responses collected (so the final `pd.concat` raises); read
`totalPages` from page 1 and return the empty frame immediately when it is 0;
otherwise fetch pages `2..totalPages`, stopping early at the first failure,
and parse everything collected. Returns the number of requests made together
with the parse result. -/
def get_all_scrobbles (api : API) (user : String) (start : Int) :
    Nat × Except String (List Row) :=
  let r1 := api (get_recent_tracks user 1 200 start)
  if r1.status_code ≠ 200 then
    ⟨1, parse_responses []⟩
  else
    let total := r1.payload.totalPages
    if total = 0 then ⟨1, .ok []⟩
    else
      let res := fetchRest api user start 2 (total - 1)
      ⟨1 + res.1, parse_responses (r1 :: res.2)⟩

/-- The default NA sentinels of `pd.read_csv`: a field holding one of these
strings (in particular the empty field) is read back as NaN. -/
def naSentinels : List String :=
  ["", "#N/A", "#N/A N/A", "#NA", "-1.#IND", "-1.#QNAN", "-NaN", "-nan",
   "1.#IND", "1.#QNAN", "<NA>", "N/A", "NA", "NULL", "NaN", "None",
   "n/a", "nan", "null"]

/-- One data line of the per-user csv file; text fields are the literal
field contents (`to_csv` writes NaN as the empty field), `datetime` is the
instant denoted by the ISO8601 field (`none` for an empty field / NaT). -/
structure CsvRow where
  artist : String
  album : String
  track : String
  datetime : Option Int
  image : String
deriving DecidableEq, Repr

/-- `to_csv` on one cell: NaN becomes the empty field, text is written as
is. -/
def writeCell : Cell → String
  | none => ""
  | some s => s

/-- `read_csv` on one field: NA sentinels (including the empty field) become
NaN. -/
def readCell (s : String) : Cell :=
  if s ∈ naSentinels then none else some s

/-- `df.to_csv(path, index=False)` on one row. -/
def writeRow (r : Row) : CsvRow :=
  { artist := writeCell r.artist, album := writeCell r.album,
    track := writeCell r.track, datetime := r.datetime,
    image := writeCell r.image }

/-- `pd.read_csv(path, header=0)` followed by the ISO8601/utc datetime
parse, on one row. -/
def readRow (c : CsvRow) : Row :=
  { artist := readCell c.artist, album := readCell c.album,
    track := readCell c.track, datetime := c.datetime,
    image := readCell c.image }

/-- `int(df["datetime"].iloc[0].timestamp() + 60)` of `load_user`: IndexError
on an empty frame, ValueError on NaT, else the newest timestamp plus 60
seconds (exact, timestamps being whole seconds). -/
def resume_start (df : List Row) : Except String Int :=
  match df.head? with
  | none => .error "IndexError: single positional indexer is out-of-bounds"
  | some r =>
    match r.datetime with
    | none => .error "ValueError: NaTType does not support timestamp"
    | some t => .ok (t + 60)

/-- Helper for `drop_duplicates`: drop rows already seen, keeping first
occurrences. -/
def dropDupAux (seen : List Row) : List Row → List Row
  | [] => []
  | r :: rs =>
    if seen.contains r then dropDupAux seen rs
    else r :: dropDupAux (r :: seen) rs

/-- `df.drop_duplicates()`: keep the first occurrence of each fully equal
row. -/
def drop_duplicates (l : List Row) : List Row := dropDupAux [] l

/-- `load_user`: read the csv file when present and compute the resume point
from its newest row; fetch from that point (from 0 when no file exists);
when new rows arrived, concatenate them in front of the existing frame; call
`drop_duplicates()` — whose result the source does not reassign, so the
saved frame keeps any duplicates (and a first-ever sync with nothing fetched
raises AttributeError there, `df` still being None); write the frame back
and return it. The result pairs the returned frame with the csv contents
written, plus the number of API requests made. -/
def load_user (api : API) (store : Option (List CsvRow)) (user : String) :
    Except String (List Row × List CsvRow) × Nat :=
  match store with
  | some csv =>
    let df := csv.map readRow
    match resume_start df with
    | .error e => ⟨.error e, 0⟩
    | .ok start =>
      let res := get_all_scrobbles api user start
      match res.2 with
      | .error e => ⟨.error e, res.1⟩
      | .ok df_new =>
        let df2 := if df_new.length > 0 then df_new ++ df else df
        let _ := drop_duplicates df2
        ⟨.ok ⟨df2, df2.map writeRow⟩, res.1⟩
  | none =>
    let res := get_all_scrobbles api user 0
    match res.2 with
    | .error e => ⟨.error e, res.1⟩
    | .ok df_new =>
      if df_new.length > 0 then
        let _ := drop_duplicates df_new
        ⟨.ok ⟨df_new, df_new.map writeRow⟩, res.1⟩
      else
        ⟨.error "AttributeError: NoneType has no attribute drop_duplicates",
         res.1⟩

/-- Timestamp comparison used to state descending order: both present and the
left one at least the right one. -/
def dtGe (a b : Option Int) : Bool :=
  match a, b with
  | some x, some y => decide (y ≤ x)
  | _, _ => false

/-- Adjacent-pairs check that a timestamp column is descending. -/
def descChain : List (Option Int) → Bool
  | [] => true
  | [_] => true
  | a :: b :: rs => dtGe a b && descChain (b :: rs)

theorem descChain_iff_chain' (l : List (Option Int)) :
    descChain l = true ↔ List.Chain' (fun a b => dtGe a b = true) l := by
  induction l with
  | nil => simp [descChain]
  | cons a rs ih =>
    cases rs with
    | nil => simp [descChain]
    | cons b t =>
      rw [List.chain'_cons, ← ih]
      simp [descChain]

/-- The in-memory frame is sorted by `datetime` most-recent-first. -/
def sortedDescRows (rows : List Row) : Prop :=
  descChain (rows.map Row.datetime) = true

/-- The saved csv contents are sorted by `datetime` most-recent-first. -/
def sortedDescCsv (l : List CsvRow) : Prop :=
  descChain (l.map CsvRow.datetime) = true

instance (rows : List Row) : Decidable (sortedDescRows rows) :=
  inferInstanceAs (Decidable (descChain _ = true))

instance (l : List CsvRow) : Decidable (sortedDescCsv l) :=
  inferInstanceAs (Decidable (descChain _ = true))

/-- A cell that the csv round trip preserves: absent, or text that is not an
NA sentinel (in particular not empty). -/
def cleanCell : Cell → Bool
  | none => true
  | some s => decide (s ∉ naSentinels)

theorem readCell_writeCell (c : Cell) (h : cleanCell c = true) :
    readCell (writeCell c) = c := by
  cases c with
  | none =>
    have h0 : ("" : String) ∈ naSentinels := by decide
    simp [writeCell, readCell, h0]
  | some s =>
    simp only [cleanCell, decide_eq_true_eq] at h
    simp [writeCell, readCell, h]

theorem readCell_writeCell_readCell (s : String) :
    readCell (writeCell (readCell s)) = readCell s := by
  by_cases h : s ∈ naSentinels
  · have h0 : ("" : String) ∈ naSentinels := by decide
    simp [readCell, writeCell, h, h0]
  · simp [readCell, writeCell, h]

theorem readRow_writeRow_readRow (c : CsvRow) :
    readRow (writeRow (readRow c)) = readRow c := by
  simp [readRow, writeRow, readCell_writeCell_readCell]

theorem read_write_read_comp : readRow ∘ writeRow ∘ readRow = readRow :=
  funext readRow_writeRow_readRow

theorem read_write_read_map (csv : List CsvRow) :
    ((csv.map readRow).map writeRow).map readRow = csv.map readRow := by
  induction csv with
  | nil => rfl
  | cons a l ih => simp only [List.map_cons, readRow_writeRow_readRow, ih]

theorem map_writeRow_datetime (l : List Row) :
    (l.map writeRow).map CsvRow.datetime = l.map Row.datetime := by
  induction l with
  | nil => rfl
  | cons a rs ih => simp [writeRow, ih]

theorem map_readRow_datetime (l : List CsvRow) :
    (l.map readRow).map Row.datetime = l.map CsvRow.datetime := by
  induction l with
  | nil => rfl
  | cons a rs ih => simp [readRow, ih]

theorem resume_start_map (csv : List CsvRow) (c0 : CsvRow) (T : Int)
    (h0 : csv.head? = some c0) (hT : c0.datetime = some T) :
    resume_start (csv.map readRow) = .ok (T + 60) := by
  cases csv with
  | nil => simp at h0
  | cons a l =>
    simp only [List.head?_cons, Option.some.injEq] at h0
    subst h0
    simp [resume_start, readRow, hT]

/-- C1 scenario, the stored boundary row: the newest event already saved. -/
def dupCsvRow : CsvRow := ⟨"a", "b", "t", some 1000, "i"⟩

/-- C1 scenario, a remote that re-returns the stored boundary event in one
page (the spec notes the `+60s` cursor slack is a heuristic and the boundary
event may come back). -/
def dupApi : API := fun _ => ⟨200, ⟨some [⟨"a", "b", "t", some 1000, "i"⟩], 1⟩⟩

/-- Claim C1: after a sync in which the fetch re-returned the stored boundary
event, the saved record holds that event twice — two identical rows with
timestamp 1000 — because `load_user` calls `df.drop_duplicates()` without
reassigning its result; the second conjunct shows the discarded
de-duplication would have removed the duplicate. -/
theorem C1_duplicate_survives_save :
    (load_user dupApi (some [dupCsvRow]) "u").1 =
      .ok ⟨[readRow dupCsvRow, readRow dupCsvRow], [dupCsvRow, dupCsvRow]⟩ ∧
    drop_duplicates [readRow dupCsvRow, readRow dupCsvRow] =
      [readRow dupCsvRow] := by
  constructor <;> rfl

/-- C7 scenario: a parsed row whose album field is empty text. -/
def emptyAlbumRow : Row := ⟨some "a", some "", some "t", some 100, some "i"⟩

/-- Claim C7 counterexample: the csv round trip of the Local Store does not
preserve a row whose album field is empty text — `to_csv` writes the empty
field and `read_csv` reads it back as NaN, not as empty text. -/
theorem C7_counterexample :
    readRow (writeRow emptyAlbumRow) = { emptyAlbumRow with album := none } ∧
    readRow (writeRow emptyAlbumRow) ≠ emptyAlbumRow := by
  constructor <;> decide

/-- Claim C7 as amended: the csv round trip preserves every row whose text
cells are either absent or text outside the NA sentinel set (in particular
non-empty); timestamps are always preserved. -/
theorem C7_roundtrip (r : Row)
    (ha : cleanCell r.artist = true) (hb : cleanCell r.album = true)
    (ht : cleanCell r.track = true) (hi : cleanCell r.image = true) :
    readRow (writeRow r) = r := by
  cases r with
  | mk a b t d i =>
    simp only [readRow, writeRow]
    simp_all only [readCell_writeCell]

/-- Witness for the amended C7 round trip at a concrete row. -/
theorem C7_roundtrip_witness :
    cleanCell (some "x") = true ∧
    readRow (writeRow ⟨some "x", some "y", some "z", some 5, some "w"⟩) =
      ⟨some "x", some "y", some "z", some 5, some "w"⟩ :=
  ⟨by decide, C7_roundtrip ⟨some "x", some "y", some "z", some 5, some "w"⟩
    (by decide) (by decide) (by decide) (by decide)⟩

/-- C8 scenario: a response whose payload structurally lacks the track
list. -/
def noTrackResp : Response := ⟨200, ⟨none, 1⟩⟩

/-- Claim C8 counterexample: a page without a track list does not parse to
zero events — `_parse_responses` raises KeyError on it, failing the whole
sync. -/
theorem C8_counterexample :
    parse_responses [noTrackResp] = .error "KeyError: track" ∧
    parse_responses [noTrackResp] ≠ .ok [] := by
  refine ⟨rfl, fun h => ?_⟩
  rw [show parse_responses [noTrackResp] = .error "KeyError: track" from rfl]
    at h
  exact Except.noConfusion h

/-- Claim C8 as amended: only a page whose track list is present but empty is
treated as zero events rather than a failure. -/
theorem C8_empty_track_list (sc tp : Nat) :
    parse_responses [⟨sc, ⟨some [], tp⟩⟩] = .ok [] := rfl

/-- Claim C2: when the first page reports zero total pages, `load_user` on a
user with an existing local record makes exactly one API request, returns
the record read from the file unchanged, and the file it writes back reloads
to the same content (the rewrite is only a format normalization). -/
theorem C2_zero_page_short_circuit (api : API) (csv : List CsvRow)
    (user : String) (c0 : CsvRow) (T : Int)
    (h0 : csv.head? = some c0) (hT : c0.datetime = some T)
    (hs : (api (get_recent_tracks user 1 200 (T + 60))).status_code = 200)
    (hp : (api (get_recent_tracks user 1 200 (T + 60))).payload.totalPages
      = 0) :
    (load_user api (some csv) user).2 = 1 ∧
    (load_user api (some csv) user).1 =
      .ok ⟨csv.map readRow, (csv.map readRow).map writeRow⟩ ∧
    ((csv.map readRow).map writeRow).map readRow = csv.map readRow := by
  have hget : get_all_scrobbles api user (T + 60) = ⟨1, .ok []⟩ := by
    unfold get_all_scrobbles
    simp [hs, hp]
  have hload : load_user api (some csv) user =
      ⟨.ok ⟨csv.map readRow, (csv.map readRow).map writeRow⟩, 1⟩ := by
    simp [load_user, resume_start_map csv c0 T h0 hT, hget]
  rw [hload]
  exact ⟨rfl, rfl, read_write_read_map csv⟩

/-- Claim C3: with an existing local record and a remote that yields no new
events at the resume point, running `load_user` twice returns the same frame
and writes the same file contents as running it once — the second run is a
fixed point. -/
theorem C3_idempotent (api : API) (csv : List CsvRow) (user : String)
    (c0 : CsvRow) (T : Int)
    (h0 : csv.head? = some c0) (hT : c0.datetime = some T)
    (hfetch : (get_all_scrobbles api user (T + 60)).2 = .ok []) :
    ∃ df saved,
      (load_user api (some csv) user).1 = .ok ⟨df, saved⟩ ∧
      (load_user api (some saved) user).1 = .ok ⟨df, saved⟩ := by
  refine ⟨csv.map readRow, (csv.map readRow).map writeRow, ?_, ?_⟩
  · simp [load_user, resume_start_map csv c0 T h0 hT, hfetch]
  · simp [load_user, read_write_read_comp,
      resume_start_map csv c0 T h0 hT, hfetch]

/-- Claim C6: for a local record whose newest row has timestamp `T`, the
resume-point computation of `load_user` yields exactly `T + 60`, and every
request built from it carries `T + 60` as its `from` parameter. -/
theorem C6_resume_point (csv : List CsvRow) (user : String) (c0 : CsvRow)
    (T : Int) (h0 : csv.head? = some c0) (hT : c0.datetime = some T) :
    resume_start (csv.map readRow) = .ok (T + 60) ∧
    ∀ page limit,
      (get_recent_tracks user page limit (T + 60)).fromTs = T + 60 :=
  ⟨resume_start_map csv c0 T h0 hT, fun _ _ => rfl⟩

/-- Witness for C6 at a concrete one-row record with timestamp 1000. -/
theorem C6_witness :
    resume_start (([⟨"a", "b", "t", some 1000, "i"⟩] : List CsvRow).map
      readRow) = .ok 1060 :=
  (C6_resume_point [⟨"a", "b", "t", some 1000, "i"⟩] "u"
    ⟨"a", "b", "t", some 1000, "i"⟩ 1000 rfl rfl).1

/-- Claim C10: with no existing local record, a sync that fetches zero new
events raises (the AttributeError of `None.drop_duplicates`, `df` still
being None) instead of returning or persisting an empty record, and a
first-ever sync returns normally only when at least one event was
fetched. -/
theorem C10_first_sync_requires_events (api : API) (user : String) :
    ((get_all_scrobbles api user 0).2 = .ok [] →
      (load_user api none user).1 =
        .error "AttributeError: NoneType has no attribute drop_duplicates") ∧
    ∀ df saved, (load_user api none user).1 = .ok ⟨df, saved⟩ → df ≠ [] := by
  constructor
  · intro h
    simp [load_user, h]
  · intro df saved h
    cases hg : (get_all_scrobbles api user 0).2 with
    | error e => simp [load_user, hg] at h
    | ok l =>
      by_cases hl : l.length > 0
      · simp [load_user, hg, hl] at h
        intro hnil
        rw [h.1, hnil] at hl
        exact Nat.lt_irrefl 0 hl
      · simp [load_user, hg, hl] at h

/-- Witness for C10: a remote reporting zero total pages on a first-ever
sync makes `load_user` raise. -/
theorem C10_witness :
    (get_all_scrobbles (fun _ => ⟨200, ⟨some [], 0⟩⟩) "u" 0).2 = .ok [] ∧
    (load_user (fun _ => ⟨200, ⟨some [], 0⟩⟩) none "u").1 =
      .error "AttributeError: NoneType has no attribute drop_duplicates" :=
  ⟨rfl, (C10_first_sync_requires_events (fun _ => ⟨200, ⟨some [], 0⟩⟩)
    "u").1 rfl⟩

/-- The timestamp of the first returned row, when parsing succeeded with a
non-empty frame. -/
def firstTimestamp : Except String (List Row) → Option (Option Int)
  | .ok (r :: _) => some r.datetime
  | _ => none

theorem except_bind_ok {α β : Type} (a : α) (f : α → Except String β) :
    (Except.ok a >>= f) = f a := rfl

/-- C5 scenario: a page whose dateless (in-progress) entry sits second,
between entries dated 2000 and 1000. -/
def midNowPlayingPage : Response :=
  ⟨200, ⟨some [⟨"a0", "b0", "t0", some 2000, "i0"⟩,
               ⟨"a1", "b1", "t1", none, "i1"⟩,
               ⟨"a2", "b2", "t2", some 1000, "i2"⟩], 1⟩⟩

/-- Claim C5 counterexample: for a page whose dateless entry is second, the
code does not resolve it to the following timestamp plus 3 minutes (1180):
`iloc[1]` is the dateless row itself, so NaT plus the offset stays NaT and
is written over the first row, while the dateless entry stays unresolved. -/
theorem C5_counterexample :
    (parse_responses [midNowPlayingPage]).map (fun rows =>
      rows.map Row.datetime) = .ok [none, none, some 1000] ∧
    (parse_responses [midNowPlayingPage]).map (fun rows =>
      rows.map Row.datetime) ≠ .ok [some 2000, some 1180, some 1000] := by
  exact ⟨rfl, by decide⟩

/-- Claim C5 as amended: the parser only rewrites the rows labelled 0 (the
first row of each page), using the positionally second timestamp plus 3
minutes; in particular, for a page whose first entry lacks a date and whose
second entry is dated `T`, the first entry parses to timestamp `T + 180`
seconds. -/
theorem C5_first_entry_synthesis (e0 e1 : Entry) (rest : List Entry)
    (sc tp : Nat) (T : Int)
    (h0 : e0.date = none) (h1 : e1.date = some T) :
    firstTimestamp (parse_responses [⟨sc, ⟨some (e0 :: e1 :: rest), tp⟩⟩]) =
      some (some (T + 180)) := by
  simp [parse_responses, buildFrames, tracksOf, concatWithLabels,
    withLabels, setNowPlaying, entryToRow, h0, h1, firstTimestamp,
    dollarFix, except_bind_ok]

/-- Witness for the amended C5 at a concrete two-entry page. -/
theorem C5_witness :
    firstTimestamp (parse_responses
      [⟨200, ⟨some [⟨"a0", "b0", "t0", none, "i0"⟩,
                    ⟨"a1", "b1", "t1", some 1000, "i1"⟩], 1⟩⟩]) =
      some (some 1180) :=
  C5_first_entry_synthesis ⟨"a0", "b0", "t0", none, "i0"⟩
    ⟨"a1", "b1", "t1", some 1000, "i1"⟩ [] 200 1 1000 rfl rfl

/-- C4 scenario: a two-page fetch whose first page starts with the dateless
in-progress entry; the parser rewrites the first row of page 2 as well,
giving it the synthetic timestamp 1180 and breaking the descending order. -/
def twoPageNowPlayingApi : API := fun req =>
  if req.page = 1 then
    ⟨200, ⟨some [⟨"a1", "b1", "t1", none, "i1"⟩,
                 ⟨"a2", "b2", "t2", some 1000, "i2"⟩], 2⟩⟩
  else ⟨200, ⟨some [⟨"a3", "b3", "t3", some 500, "i3"⟩], 2⟩⟩

/-- Claim C4 counterexample: after this sync the saved record's timestamps
are 1180, 1000, 1180 — not descending — because `df.loc[0, "datetime"]`
writes the synthetic now-playing timestamp to the label-0 row of every page
of the concatenated frame. -/
theorem C4_counterexample :
    (load_user twoPageNowPlayingApi none "u").1 =
      .ok ⟨[⟨some "a1", some "b1", some "t1", some 1180, some "i1"⟩,
            ⟨some "a2", some "b2", some "t2", some 1000, some "i2"⟩,
            ⟨some "a3", some "b3", some "t3", some 1180, some "i3"⟩],
           [⟨"a1", "b1", "t1", some 1180, "i1"⟩,
            ⟨"a2", "b2", "t2", some 1000, "i2"⟩,
            ⟨"a3", "b3", "t3", some 1180, "i3"⟩]⟩ ∧
    ¬ sortedDescCsv
        [⟨"a1", "b1", "t1", some 1180, "i1"⟩,
         ⟨"a2", "b2", "t2", some 1000, "i2"⟩,
         ⟨"a3", "b3", "t3", some 1180, "i3"⟩] :=
  ⟨rfl, by decide⟩

/-- Claim C4 as amended: when the fetched-and-parsed new events are all
dated, sorted most-recent-first, and at least as recent as the stored head
timestamp, and the existing record is itself sorted most-recent-first, the
record `load_user` saves is sorted by timestamp descending. -/
theorem C4_sorted_save (api : API) (csv : List CsvRow) (user : String)
    (c0 : CsvRow) (T : Int) (rows : List Row)
    (h0 : csv.head? = some c0) (hT : c0.datetime = some T)
    (hfetch : (get_all_scrobbles api user (T + 60)).2 = .ok rows)
    (hnew : sortedDescRows rows)
    (hold : sortedDescCsv csv)
    (hb : ∀ r ∈ rows, dtGe r.datetime (some T) = true) :
    ∃ df saved, (load_user api (some csv) user).1 = .ok ⟨df, saved⟩ ∧
      sortedDescCsv saved := by
  by_cases hlen : rows.length > 0
  · refine ⟨rows ++ csv.map readRow,
      (rows ++ csv.map readRow).map writeRow, ?_, ?_⟩
    · simp [load_user, resume_start_map csv c0 T h0 hT, hfetch, hlen]
    · unfold sortedDescCsv
      rw [map_writeRow_datetime, List.map_append, map_readRow_datetime,
        descChain_iff_chain', List.chain'_append]
      refine ⟨(descChain_iff_chain' _).mp hnew,
        (descChain_iff_chain' _).mp hold, ?_⟩
      intro x hx y hy
      rw [List.head?_map, h0] at hy
      have hy2 : c0.datetime = y := by
        simpa [Option.mem_def] using hy
      obtain ⟨hne, hxl⟩ := List.mem_getLast?_eq_getLast hx
      have hxmem : x ∈ rows.map Row.datetime := hxl ▸ List.getLast_mem hne
      obtain ⟨r, hr, hrx⟩ := List.mem_map.mp hxmem
      rw [← hrx, ← hy2, hT]
      exact hb r hr
  · have hnil : rows = [] := List.length_eq_zero.mp (by omega)
    subst hnil
    refine ⟨csv.map readRow, (csv.map readRow).map writeRow, ?_, ?_⟩
    · simp [load_user, resume_start_map csv c0 T h0 hT, hfetch]
    · unfold sortedDescCsv
      rw [map_writeRow_datetime, map_readRow_datetime]
      exact hold

/-- Witness for the amended C4: one stored row at 100, one fetched event at
200, saved record sorted. -/
theorem C4_witness :
    ∃ df saved,
      (load_user (fun _ => ⟨200, ⟨some [⟨"a", "b", "t", some 200, "i"⟩], 1⟩⟩)
        (some [⟨"x", "y", "z", some 100, "w"⟩]) "u").1 = .ok ⟨df, saved⟩ ∧
      sortedDescCsv saved :=
  C4_sorted_save _ _ "u" ⟨"x", "y", "z", some 100, "w"⟩ 100
    [⟨some "a", some "b", some "t", some 200, some "i"⟩]
    rfl rfl rfl (by decide) (by decide) (by decide)

/-- C9 scenario: the remote fails with HTTP 500 from page 1 on. -/
def failFirstApi : API := fun _ => ⟨500, ⟨some [], 1⟩⟩

/-- Claim C9 counterexample: when the very first page has a non-success
status the loop breaks with no responses collected and the parse step
raises ValueError (`pd.concat` of no objects) — the sync does not deliver a
partial result without raising. -/
theorem C9_counterexample :
    get_all_scrobbles failFirstApi "u" 0 =
      ⟨1, .error "ValueError: No objects to concatenate"⟩ ∧
    ∀ rows, (get_all_scrobbles failFirstApi "u" 0).2 ≠ .ok rows := by
  refine ⟨rfl, fun rows h => ?_⟩
  rw [show (get_all_scrobbles failFirstApi "u" 0).2 =
    .error "ValueError: No objects to concatenate" from rfl] at h
  exact Except.noConfusion h

theorem fetchRest_fail (api : API) (user : String) (start : Int) :
    ∀ n page j : Nat, page ≤ j → j < page + n →
    (∀ p, page ≤ p → p < j →
      (api (get_recent_tracks user p 200 start)).status_code = 200) →
    (api (get_recent_tracks user j 200 start)).status_code ≠ 200 →
    fetchRest api user start page n =
      ⟨j + 1 - page,
       (List.range' page (j - page)).map
         (fun p => api (get_recent_tracks user p 200 start))⟩ := by
  intro n
  induction n with
  | zero => intro page j h1 h2 _ _; omega
  | succ n ih =>
    intro page j h1 h2 hok hfail
    by_cases hpj : page = j
    · subst hpj
      have hone : page + 1 - page = 1 := by omega
      simp [fetchRest, hfail, Nat.sub_self, hone]
    · have hlt : page < j := Nat.lt_of_le_of_ne h1 hpj
      have hokp := hok page le_rfl hlt
      have hrec := ih (page + 1) j hlt (by omega)
        (fun p hp1 hp2 => hok p (by omega) hp2) hfail
      have hrange : List.range' page (j - page) =
          page :: List.range' (page + 1) (j - (page + 1)) := by
        have he : j - page = (j - (page + 1)) + 1 := by omega
        rw [he, List.range'_succ]
      have hcount : (j + 1 - (page + 1)) + 1 = j + 1 - page := by omega
      simp only [fetchRest, hokp, ne_eq, not_true_eq_false, if_false,
        hrec, hrange, List.map_cons, hcount]

/-- Claim C9 as amended: for a non-success status on page `j ≥ 2` the fetch
loop stops at page `j` (exactly `j` requests) and the result is the parse of
pages `1..j-1` — all pages fetched before the failure are parsed and
included. (A failure on page 1 instead leaves nothing to parse and raises,
see the counterexample.) -/
theorem C9_partial_result (api : API) (user : String) (start : Int)
    (total j : Nat)
    (h1 : (api (get_recent_tracks user 1 200 start)).status_code = 200)
    (ht : (api (get_recent_tracks user 1 200 start)).payload.totalPages
      = total)
    (hj2 : 2 ≤ j) (hjt : j ≤ total)
    (hok : ∀ p, 2 ≤ p → p < j →
      (api (get_recent_tracks user p 200 start)).status_code = 200)
    (hfail : (api (get_recent_tracks user j 200 start)).status_code ≠ 200) :
    get_all_scrobbles api user start =
      ⟨j, parse_responses ((List.range' 1 (j - 1)).map
        (fun p => api (get_recent_tracks user p 200 start)))⟩ := by
  have htpos : total ≠ 0 := by omega
  have hfr := fetchRest_fail api user start (total - 1) 2 j hj2 (by omega)
    hok hfail
  have hrange : List.range' 1 (j - 1) = 1 :: List.range' 2 (j - 2) := by
    have he : j - 1 = (j - 2) + 1 := by omega
    rw [he, List.range'_succ]
  have hcount : 1 + (j + 1 - 2) = j := by omega
  simp only [get_all_scrobbles, h1, ne_eq, not_true_eq_false, if_false,
    ht, htpos, if_neg htpos, hfr, hrange, List.map_cons, hcount]

/-- C9 witness scenario: two total pages, page 2 failing. -/
def failSecondApi : API := fun req =>
  if req.page = 1 then ⟨200, ⟨some [⟨"a", "b", "t", some 100, "i"⟩], 2⟩⟩
  else ⟨500, ⟨some [], 2⟩⟩

/-- Witness for the amended C9: the failure on page 2 stops the loop after 2
requests and the result is the parse of page 1 alone. -/
theorem C9_witness :
    get_all_scrobbles failSecondApi "u" 0 =
      ⟨2, parse_responses ((List.range' 1 1).map
        (fun p => failSecondApi (get_recent_tracks "u" p 200 0)))⟩ :=
  C9_partial_result failSecondApi "u" 0 2 2 rfl rfl (by decide) (by decide)
    (fun p hp1 hp2 => absurd hp2 (Nat.not_lt.mpr hp1)) (by decide)

/-- Witness for C2 at a one-row record and a zero-page remote. -/
theorem C2_witness :
    (load_user (fun _ => ⟨200, ⟨some [], 0⟩⟩)
      (some [⟨"a", "b", "t", some 1000, "i"⟩]) "u").2 = 1 ∧
    (load_user (fun _ => ⟨200, ⟨some [], 0⟩⟩)
      (some [⟨"a", "b", "t", some 1000, "i"⟩]) "u").1 =
      .ok ⟨([⟨"a", "b", "t", some 1000, "i"⟩] : List CsvRow).map readRow,
           (([⟨"a", "b", "t", some 1000, "i"⟩] : List CsvRow).map
             readRow).map writeRow⟩ ∧
    ((([⟨"a", "b", "t", some 1000, "i"⟩] : List CsvRow).map readRow).map
      writeRow).map readRow =
      ([⟨"a", "b", "t", some 1000, "i"⟩] : List CsvRow).map readRow :=
  C2_zero_page_short_circuit _ _ "u" ⟨"a", "b", "t", some 1000, "i"⟩ 1000
    rfl rfl rfl rfl

/-- Witness for C3 at a one-row record and a zero-page remote. -/
theorem C3_witness :
    ∃ df saved,
      (load_user (fun _ => ⟨200, ⟨some [], 0⟩⟩)
        (some [⟨"a", "b", "t", some 1000, "i"⟩]) "u").1 = .ok ⟨df, saved⟩ ∧
      (load_user (fun _ => ⟨200, ⟨some [], 0⟩⟩) (some saved) "u").1 =
        .ok ⟨df, saved⟩ :=
  C3_idempotent _ _ "u" ⟨"a", "b", "t", some 1000, "i"⟩ 1000 rfl rfl rfl

end LastCharts
